import Mathlib

/-
Verification development for the opencodespace build/test automation
scripts: `dev-build.py` (build orchestrator), `run_tests.py` (test runner
wrapper) and `tests/conftest.py` (pytest fixtures).

The scripts are shallowly embedded: every external process invocation is
resolved through an explicit oracle (`exec`) mapping the command's argument
vector to its outcome, and filesystem facts the scripts consult are explicit
fields of the world/state.  Terminal printing is not modelled, except for
the orchestrator's `print_warning` calls, which are recorded in a `warns`
list because one claim is about warnings.
-/

/-- Outcome of launching one external process: either the executable was
found and exited with the given code, or it was not found on the search
path (Python `FileNotFoundError`). -/
inductive ExecResult where
  | found : Nat → ExecResult
  | notFound : ExecResult
deriving DecidableEq, Repr

namespace RunTestsPy

/-!  Embedding of `run_tests.py`.

All commands built by this script start with `sys.executable`, which is the
running Python interpreter and therefore always exists, so the exec oracle
for this script returns plain exit codes.  `sys_executable` and `test_dir`
stand for `sys.executable` and `str(self.test_dir)`; the script never
inspects their contents, so they are fixed abstract strings here. -/

def sys_executable : String := "python3"

def test_dir : String := "tests"

/-- Parsed command line of `run_tests.py` (the argparse namespace).
`parallel`/`markers` are `none` when the flag is absent; `tests` and
`pytest_args` are `[]` when absent (argparse yields `None`, which is falsy
exactly like the empty list). -/
structure RArgs where
  setup : Bool
  quick : Bool
  integration : Bool
  coverage : Bool
  coverage_fail : Int
  check : Bool
  lint : Bool
  parallel : Option String
  verbose : Bool
  markers : Option String
  tests : List String
  pytest_args : List String
deriving Repr

/-- Environment facts `run_tests.py` consults: exit code of each command it
runs, existence of `tests/test_requirements.txt`, whether `import pytest`
succeeds, and the `test_*.py` files found by `check_test_structure`. -/
structure RWorld where
  exec : List String → Nat
  reqExists : Bool
  pytestImportable : Bool
  testFiles : List String

/-- Embeds `TestRunner.run_tests`: the pytest argument list built from the flags.
Python truthiness is preserved: `coverage_fail = 0`, `parallel = ""` and
`markers = ""` are falsy and append nothing. -/
def run_tests_cmd (a : RArgs) : List String :=
  [sys_executable, "-m", "pytest", test_dir]
  ++ (if a.coverage then
        ["--cov=src/opencodespace", "--cov-report=term-missing",
         "--cov-report=html:htmlcov", "--cov-report=xml"]
        ++ (if a.coverage_fail ≠ 0 then
              ["--cov-fail-under=" ++ toString a.coverage_fail] else [])
      else [])
  ++ (match a.parallel with
      | some p => if p = "" then [] else ["-n", p]
      | none => [])
  ++ (if a.verbose then ["-v"] else [])
  ++ (match a.markers with
      | some m => if m = "" then [] else ["-m", m]
      | none => [])
  ++ (if a.tests.isEmpty then [] else a.tests)
  ++ (if a.pytest_args.isEmpty then [] else a.pytest_args)

/-- The `TestRunner.run_quick_tests` command. -/
def quick_cmd : List String :=
  [sys_executable, "-m", "pytest", test_dir,
   "-m", "unit or (not integration and not slow)", "-v"]

/-- The `TestRunner.run_integration_tests` command. -/
def integration_cmd : List String :=
  [sys_executable, "-m", "pytest", test_dir, "-m", "integration", "-v"]

/-- The `TestRunner.run_coverage_report` command (note the hard-coded
`--cov-fail-under=85`, independent of `args.coverage_fail`). -/
def coverage_cmd : List String :=
  [sys_executable, "-m", "pytest", test_dir,
   "--cov=src/opencodespace", "--cov-report=term-missing",
   "--cov-report=html:htmlcov", "--cov-report=xml", "--cov-fail-under=85"]

/-- The `TestRunner.install_dependencies` command. -/
def pip_install_req_cmd : List String :=
  [sys_executable, "-m", "pip", "install", "-r", "tests/test_requirements.txt"]

/-- The `TestRunner.install_package` command. -/
def pip_install_pkg_cmd : List String :=
  [sys_executable, "-m", "pip", "install", "-e", "."]

/-- The `TestRunner.lint_tests` command. -/
def flake8_cmd : List String :=
  [sys_executable, "-m", "flake8", test_dir]

/-- The `if args.quick / elif args.integration / elif args.coverage / else`
dispatch at the end of `main`: the single pytest command the selected mode
constructs. -/
def selectRunCmd (a : RArgs) : List String :=
  if a.quick then quick_cmd
  else if a.integration then integration_cmd
  else if a.coverage then coverage_cmd
  else run_tests_cmd a

/-- Embeds `main` of `run_tests.py`.  Returns the process exit code and the list
of external commands launched, in order.  `TestRunner.run_command` calls
`sys.exit(returncode)` on a non-zero exit, which terminates the process
with that code; falling off the end of `main` exits 0. -/
def rtMain (a : RArgs) (w : RWorld) : Nat × List (List String) :=
  if a.setup then
    let k1 := w.exec pip_install_req_cmd
    if k1 ≠ 0 then (k1, [pip_install_req_cmd])
    else
      let k2 := w.exec pip_install_pkg_cmd
      (k2, [pip_install_req_cmd, pip_install_pkg_cmd])
  else if a.check then
    (if w.testFiles.isEmpty then (1, []) else (0, []))
  else if a.lint then
    (w.exec flake8_cmd, [flake8_cmd])
  else if !w.reqExists then
    (1, [])
  else if !w.pytestImportable then
    let k1 := w.exec pip_install_req_cmd
    if k1 ≠ 0 then (k1, [pip_install_req_cmd])
    else (w.exec (selectRunCmd a), [pip_install_req_cmd, selectRunCmd a])
  else
    (w.exec (selectRunCmd a), [selectRunCmd a])

/-- Default argparse namespace: no flags given. -/
def defaultArgs : RArgs :=
  { setup := false, quick := false, integration := false, coverage := false,
    coverage_fail := 85, check := false, lint := false, parallel := none,
    verbose := false, markers := none, tests := [], pytest_args := [] }

/-- A benign world: every command exits 0, the requirements manifest
exists, pytest imports, one test file present. -/
def okWorld : RWorld :=
  { exec := fun _ => 0, reqExists := true, pytestImportable := true,
    testFiles := ["test_main.py"] }

end RunTestsPy

namespace DevBuildPy

/-!  Embedding of `dev-build.py`.

External invocations go through the oracle `exec`; `testReqExists` is the
`Path("tests/test_requirements.txt").exists()` check in
`install_dependencies`.  Each step returns its boolean result, the ordered
list of external commands it launched, and the warnings it printed via
`print_warning`. -/

/-- Environment facts `dev-build.py` consults. -/
structure BWorld where
  exec : List String → ExecResult
  testReqExists : Bool

/-- Result of one build step: `success` is the step function's return
value, `cmds` the external commands launched (in order), `warns` the
`print_warning` messages emitted. -/
structure StepOut where
  success : Bool
  cmds : List (List String)
  warns : List String
deriving DecidableEq, Repr

def uv_version_cmd : List String := ["uv", "--version"]

def uv_req_cmd : List String := ["uv", "pip", "install", "-r", "requirements.txt"]

def uv_test_req_cmd : List String :=
  ["uv", "pip", "install", "-r", "tests/test_requirements.txt"]

def uv_editable_cmd : List String := ["uv", "pip", "install", "-e", "."]

def run_tests_full_cmd : List String := ["python", "run_tests.py"]

def run_tests_quick_cmd : List String := ["python", "run_tests.py", "--quick"]

def build_module_cmd : List String := ["python", "-m", "build"]

def setup_py_cmd : List String := ["python", "setup.py", "sdist", "bdist_wheel"]

def flake8_version_cmd : List String := ["flake8", "--version"]

def flake8_lint_cmd : List String := ["flake8", "src/", "tests/"]

def black_version_cmd : List String := ["black", "--version"]

def black_check_cmd : List String := ["black", "--check", "src/", "tests/"]

/-- Embeds `run_command`: True iff the process was found and exited 0.  A non-zero
exit (whether reported via `CalledProcessError` under `check=True` or via
the returncode test under `check=False`) and a `FileNotFoundError` are both
caught and yield False; the `check` argument only changes which message is
printed, not the result. -/
def run_command (w : BWorld) (cmd : List String) : Bool :=
  match w.exec cmd with
  | .found 0 => true
  | _ => false

/-- Embeds `check_uv_installed`: `subprocess.run(["uv", "--version"], check=True)`
with `CalledProcessError` and `FileNotFoundError` mapped to False. -/
def check_uv_installed (w : BWorld) : Bool :=
  match w.exec uv_version_cmd with
  | .found 0 => true
  | _ => false

/-- Embeds `install_dependencies`: uv presence check, then requirements, then the
test requirements (only when `tests/test_requirements.txt` exists), then
the editable install, short-circuiting on the first failure. -/
def install_dependencies (w : BWorld) : StepOut :=
  if !check_uv_installed w then ⟨false, [uv_version_cmd], []⟩
  else if !run_command w uv_req_cmd then
    ⟨false, [uv_version_cmd, uv_req_cmd], []⟩
  else if w.testReqExists && !run_command w uv_test_req_cmd then
    ⟨false, [uv_version_cmd, uv_req_cmd, uv_test_req_cmd], []⟩
  else if !run_command w uv_editable_cmd then
    ⟨false, (if w.testReqExists
        then [uv_version_cmd, uv_req_cmd, uv_test_req_cmd]
        else [uv_version_cmd, uv_req_cmd]) ++ [uv_editable_cmd], []⟩
  else
    ⟨true, (if w.testReqExists
        then [uv_version_cmd, uv_req_cmd, uv_test_req_cmd]
        else [uv_version_cmd, uv_req_cmd]) ++ [uv_editable_cmd], []⟩

/-- Embeds `run_tests` of `dev-build.py`: one invocation of the test runner
wrapper, `--quick` when requested, `check=False`. -/
def run_tests_step (w : BWorld) (quick : Bool) : StepOut :=
  let c := if quick then run_tests_quick_cmd else run_tests_full_cmd
  ⟨run_command w c, [c], []⟩

/-- Embeds `build_package`: `clean_build()` first (pure filesystem work, no
external command, always True — modelled separately as `CleanFS.clean_build`),
then `python -m build`, falling back to `python setup.py sdist bdist_wheel`
with a warning when the first build command fails. -/
def build_package (w : BWorld) : StepOut :=
  if run_command w build_module_cmd then ⟨true, [build_module_cmd], []⟩
  else if run_command w setup_py_cmd then
    ⟨true, [build_module_cmd, setup_py_cmd],
     ["python -m build failed, trying setup.py"]⟩
  else
    ⟨false, [build_module_cmd, setup_py_cmd],
     ["python -m build failed, trying setup.py"]⟩

/-- Embeds `run_lint`: each tool is probed with `--version` under `check=True`,
which succeeds exactly when the probe is found and exits 0 (the same
outcome condition as `run_command`, so the probe is written with it);
a probe failure (`CalledProcessError` or `FileNotFoundError`) skips that
tool with a warning.  Otherwise the actual check runs with `check=False`;
a failing flake8 run clears `success`, a failing black check warns and
clears `success`.  The four probe combinations are written out: command
order and warning order follow the source (flake8 part first). -/
def run_lint (w : BWorld) : StepOut :=
  if run_command w flake8_version_cmd then
    if run_command w black_version_cmd then
      ⟨run_command w flake8_lint_cmd && run_command w black_check_cmd,
       [flake8_version_cmd, flake8_lint_cmd, black_version_cmd, black_check_cmd],
       if run_command w black_check_cmd then [] else ["Code formatting issues found"]⟩
    else
      ⟨run_command w flake8_lint_cmd,
       [flake8_version_cmd, flake8_lint_cmd, black_version_cmd],
       ["black not found, skipping format checking"]⟩
  else
    if run_command w black_version_cmd then
      ⟨run_command w black_check_cmd,
       [flake8_version_cmd, black_version_cmd, black_check_cmd],
       if run_command w black_check_cmd then
         ["flake8 not found, skipping linting"]
       else ["flake8 not found, skipping linting", "Code formatting issues found"]⟩
    else
      ⟨true, [flake8_version_cmd, black_version_cmd],
       ["flake8 not found, skipping linting",
        "black not found, skipping format checking"]⟩

/-- Output of `run_all`: overall success, all external commands launched,
the names of the steps that were invoked (in order), and warnings. -/
structure PipelineOut where
  success : Bool
  cmds : List (List String)
  steps : List String
  warns : List String
deriving DecidableEq, Repr

/-- The `for step_name, step_func in steps` loop of `run_all` with its
early `return False` after the first failing step. -/
def runSteps (w : BWorld) : List (String × (BWorld → StepOut)) → PipelineOut
  | [] => ⟨true, [], [], []⟩
  | (name, f) :: rest =>
      let r := f w
      if r.success then
        let out := runSteps w rest
        ⟨out.success, r.cmds ++ out.cmds, name :: out.steps, r.warns ++ out.warns⟩
      else ⟨false, r.cmds, [name], r.warns⟩

/-- The `steps` list of `run_all`. -/
def allSteps : List (String × (BWorld → StepOut)) :=
  [("Installing dependencies", install_dependencies),
   ("Running tests", fun w => run_tests_step w false),
   ("Running lint checks", run_lint),
   ("Building package", build_package)]

/-- Embeds `run_all`: the complete build pipeline. -/
def run_all (w : BWorld) : PipelineOut := runSteps w allSteps

/-- The subcommands accepted by `main` of `dev-build.py`. -/
inductive BCmd where
  | install | test | clean | build | lint | all | help
deriving DecidableEq, Repr

/-- The `main` dispatch: the `success` value, commands and warnings of the
selected subcommand.  `clean` always returns True and launches no external
command (its filesystem effect is modelled by `CleanFS.clean_build`);
`help` only prints and sets success to True. -/
def dispatch (c : BCmd) (quick : Bool) (w : BWorld) : StepOut :=
  match c with
  | .install => install_dependencies w
  | .test => run_tests_step w quick
  | .clean => ⟨true, [], []⟩
  | .build => build_package w
  | .lint => run_lint w
  | .all =>
      let r := run_all w
      ⟨r.success, r.cmds, r.warns⟩
  | .help => ⟨true, [], []⟩

/-- The final `if not success and args.command != "help": sys.exit(1)` of
`main`: the process exit code. -/
def exitCode (c : BCmd) (quick : Bool) (w : BWorld) : Nat :=
  if !(dispatch c quick w).success && c ≠ BCmd.help then 1 else 0

/-- A world where every external command succeeds and the optional test
requirements manifest exists. -/
def allOkWorld : BWorld :=
  { exec := fun _ => .found 0, testReqExists := true }

/-- A world in which `python -m build` exits 1 and every other command
exits 0. -/
def buildFallbackWorld : BWorld :=
  { exec := fun c => if c = build_module_cmd then .found 1 else .found 0,
    testReqExists := true }

/-- A world in which neither flake8 nor black is on the search path and
every other command exits 0. -/
def noLintersWorld : BWorld :=
  { exec := fun c =>
      if c = flake8_version_cmd then .notFound
      else if c = black_version_cmd then .notFound
      else .found 0,
    testReqExists := true }

/-- A world where every command succeeds but `tests/test_requirements.txt`
does not exist. -/
def noTestReqWorld : BWorld :=
  { exec := fun _ => .found 0, testReqExists := false }

/-- A world where every command exits 1. -/
def allFailWorld : BWorld :=
  { exec := fun _ => .found 1, testReqExists := true }

/-- The commands whose non-zero exit the orchestrator tolerates: the
primary build command (recovered by the `setup.py` fallback) and the two
lint availability probes (whose failure merely skips the tool). -/
def nonfatalCmds : List (List String) :=
  [build_module_cmd, flake8_version_cmd, black_version_cmd]

end DevBuildPy

namespace CleanFS

/-!  Embedding of `clean_build` of `dev-build.py`.

The filesystem under the project root is a finite list of entries, each a
non-root path (its components relative to the root) with a directory flag.
`Path.glob`/`Path.rglob` on the script's fixed patterns reduce to a
predicate on the entry's last component (exact name, or a `*X` suffix
match), the entry's depth (top-level only for the non-recursive patterns),
and — for patterns written with a trailing `/` — the directory flag.
`shutil.rmtree` removes an entry and everything below it, `Path.unlink`
removes a single file; the `if path.exists()` guard skips entries that an
earlier removal in the same pass already deleted. -/

/-- One filesystem entry: path components relative to the project root,
and whether it is a directory. -/
structure Entry where
  path : List String
  isDir : Bool
deriving DecidableEq, Repr

/-- The filename part of a glob pattern: an exact name, or `*X` matching
any name ending in `X`. -/
inductive NamePat where
  | exact : String → NamePat
  | endsWith : String → NamePat
deriving DecidableEq, Repr

/-- One pattern of `patterns_to_remove`: whether it is a `**/` recursive
pattern, its filename part, and whether the trailing `/` restricts it to
directories. -/
structure Pat where
  recursive : Bool
  name : NamePat
  dirOnly : Bool
deriving DecidableEq, Repr

/-- The `patterns_to_remove` list of `clean_build`, in source order. -/
def patterns_to_remove : List Pat :=
  [⟨false, .exact "build", true⟩,
   ⟨false, .exact "dist", true⟩,
   ⟨false, .endsWith ".egg-info", true⟩,
   ⟨false, .exact "__pycache__", true⟩,
   ⟨true,  .exact "__pycache__", true⟩,
   ⟨false, .exact ".pytest_cache", true⟩,
   ⟨false, .exact ".coverage", false⟩,
   ⟨false, .exact "htmlcov", true⟩,
   ⟨false, .endsWith ".pyc", false⟩,
   ⟨true,  .endsWith ".pyc", false⟩,
   ⟨false, .endsWith ".pyo", false⟩,
   ⟨true,  .endsWith ".pyo", false⟩]

def nameMatches : NamePat → String → Bool
  | .exact s, n => n = s
  | .endsWith s, n => s.data.isSuffixOf n.data

/-- Whether a glob over one pattern yields this entry. -/
def entryMatches (p : Pat) (e : Entry) : Bool :=
  (match e.path.getLast? with
   | some n => nameMatches p.name n
   | none => false)
  && (if p.recursive then true else e.path.length == 1)
  && (!p.dirOnly || e.isDir)

/-- Removal of one matched path: `shutil.rmtree` for a directory (the
entry and everything below it), `Path.unlink` for a file. -/
def removeEntry (fs : List Entry) (e : Entry) : List Entry :=
  if e.isDir then fs.filter (fun q => !(e.path.isPrefixOf q.path))
  else fs.filter (fun q => q ≠ e)

/-- The inner `for path in ...` loop over one pattern's matches:
`if path.exists()` guards against entries deleted earlier in the pass, and
`removed_count` is incremented once per actual removal. -/
def removeMatches (fs : List Entry) (count : Nat) :
    List Entry → List Entry × Nat
  | [] => (fs, count)
  | e :: rest =>
      if e ∈ fs then removeMatches (removeEntry fs e) (count + 1) rest
      else removeMatches fs count rest

/-- Processing of one pattern: glob the current state, then remove each
match. -/
def cleanPattern (fs : List Entry) (count : Nat) (p : Pat) : List Entry × Nat :=
  removeMatches fs count (fs.filter (entryMatches p))

/-- Embeds `clean_build`: fold the pattern list over the filesystem, returning the
final state and `removed_count` (the step itself always returns True). -/
def clean_build (fs : List Entry) : List Entry × Nat :=
  patterns_to_remove.foldl (fun s p => cleanPattern s.1 s.2 p) (fs, 0)

end CleanFS

namespace Conftest

/-!  Embedding of the `clean_environment` autouse fixture of
`tests/conftest.py`.  `os.environ` is a finite map from variable names to
values, modelled extensionally. -/

/-- The process environment: a map from variable name to value. -/
def Env : Type := String → Option String

/-- The fixture's `env_vars_to_clean` list. -/
def env_vars_to_clean : List String :=
  ["PASSWORD", "GIT_REPO_URL", "SSH_PRIVATE_KEY", "GIT_USER_NAME",
   "GIT_USER_EMAIL", "VSCODE_EXTENSIONS", "CURSOR_EXTENSIONS",
   "VSCODE_SETTINGS", "CURSOR_SETTINGS", "SKIP_GIT_SETUP"]

/-- Embeds `os.environ.pop(var, None)`. -/
def pop (e : Env) (v : String) : Env :=
  fun k => if k = v then none else e k

/-- Embeds `os.environ.clear()`: discards every entry of the current environment. -/
def clear (_e : Env) : Env := fun _ => none

/-- Embeds `os.environ.update(m)`: every key of `m` is set to its value in `m`,
other keys keep their current value. -/
def updateAll (e : Env) (m : Env) : Env :=
  fun k => match m k with
  | some v => some v
  | none => e k

/-- The `clean_environment` fixture around one test: copy the environment,
pop each variable of the cleanup list, run the test body (which may mutate
the environment arbitrarily), then `clear()` and `update(original_env)`.
Returns the environment the test body starts from and the environment
after the fixture finishes. -/
def clean_environment (env0 : Env) (body : Env → Env) : Env × Env :=
  let original_env := env0
  let atStart := env_vars_to_clean.foldl pop env0
  let afterBody := body atStart
  (atStart, updateAll (clear afterBody) original_env)

end Conftest

/-! ## Shared lemmas -/

theorem DevBuildPy.run_command_eq_true (w : DevBuildPy.BWorld) (cmd : List String) :
    DevBuildPy.run_command w cmd = true ↔ w.exec cmd = ExecResult.found 0 := by
  unfold DevBuildPy.run_command
  rcases h : w.exec cmd with k | _
  · rcases k with _ | k <;> simp
  · simp

theorem DevBuildPy.run_command_eq_false (w : DevBuildPy.BWorld) (cmd : List String) :
    DevBuildPy.run_command w cmd = false ↔ w.exec cmd ≠ ExecResult.found 0 := by
  rw [← Bool.not_eq_true, not_iff_not]
  exact DevBuildPy.run_command_eq_true w cmd

theorem DevBuildPy.check_uv_run_command (w : DevBuildPy.BWorld) :
    DevBuildPy.check_uv_installed w = DevBuildPy.run_command w DevBuildPy.uv_version_cmd :=
  rfl

theorem DevBuildPy.flake8_version_mem_nonfatal :
    DevBuildPy.flake8_version_cmd ∈ DevBuildPy.nonfatalCmds := by decide

theorem DevBuildPy.black_version_mem_nonfatal :
    DevBuildPy.black_version_cmd ∈ DevBuildPy.nonfatalCmds := by decide

theorem DevBuildPy.build_module_mem_nonfatal :
    DevBuildPy.build_module_cmd ∈ DevBuildPy.nonfatalCmds := by decide

theorem DevBuildPy.install_good (w : DevBuildPy.BWorld)
    (h : (DevBuildPy.install_dependencies w).success = true) :
    ∀ c ∈ (DevBuildPy.install_dependencies w).cmds,
      c ∉ DevBuildPy.nonfatalCmds → w.exec c = ExecResult.found 0 := by
  intro c hc hnf
  unfold DevBuildPy.install_dependencies at h hc
  split_ifs at h hc with h1 h2 h3 h4 h5 <;>
    first
      | (exfalso; simp_all; done)
      | (simp at hc
         first
           | (rcases hc with rfl | rfl | rfl | rfl <;>
               (simp_all [DevBuildPy.check_uv_run_command, DevBuildPy.run_command_eq_true,
                 DevBuildPy.run_command_eq_false, DevBuildPy.flake8_version_mem_nonfatal,
                 DevBuildPy.black_version_mem_nonfatal, DevBuildPy.build_module_mem_nonfatal]
                done))
           | (rcases hc with rfl | rfl | rfl <;>
               (simp_all [DevBuildPy.check_uv_run_command, DevBuildPy.run_command_eq_true,
                 DevBuildPy.run_command_eq_false, DevBuildPy.flake8_version_mem_nonfatal,
                 DevBuildPy.black_version_mem_nonfatal, DevBuildPy.build_module_mem_nonfatal]
                done))
           | (rcases hc with rfl | rfl <;>
               (simp_all [DevBuildPy.check_uv_run_command, DevBuildPy.run_command_eq_true,
                 DevBuildPy.run_command_eq_false, DevBuildPy.flake8_version_mem_nonfatal,
                 DevBuildPy.black_version_mem_nonfatal, DevBuildPy.build_module_mem_nonfatal]
                done))
           | (rcases hc with rfl
              simp_all [DevBuildPy.check_uv_run_command, DevBuildPy.run_command_eq_true,
                DevBuildPy.run_command_eq_false, DevBuildPy.flake8_version_mem_nonfatal,
                DevBuildPy.black_version_mem_nonfatal, DevBuildPy.build_module_mem_nonfatal]
              done))

theorem DevBuildPy.install_bad (w : DevBuildPy.BWorld)
    (h : (DevBuildPy.install_dependencies w).success = false) :
    ∃ c ∈ (DevBuildPy.install_dependencies w).cmds, w.exec c ≠ ExecResult.found 0 := by
  unfold DevBuildPy.install_dependencies at h ⊢
  split_ifs at h ⊢ with h1 h2 h3 h4 h5
  · exact ⟨DevBuildPy.uv_version_cmd, by simp,
      (DevBuildPy.run_command_eq_false w _).mp
        (by simp_all [DevBuildPy.check_uv_run_command])⟩
  · exact ⟨DevBuildPy.uv_req_cmd, by simp,
      (DevBuildPy.run_command_eq_false w _).mp (by simp_all)⟩
  · exact ⟨DevBuildPy.uv_test_req_cmd, by simp,
      (DevBuildPy.run_command_eq_false w _).mp (by simp_all)⟩
  · exact ⟨DevBuildPy.uv_editable_cmd, by simp,
      (DevBuildPy.run_command_eq_false w _).mp (by simp_all)⟩
  · exact ⟨DevBuildPy.uv_editable_cmd, by simp,
      (DevBuildPy.run_command_eq_false w _).mp (by simp_all)⟩

theorem DevBuildPy.run_tests_step_good (w : DevBuildPy.BWorld) (q : Bool)
    (h : (DevBuildPy.run_tests_step w q).success = true) :
    ∀ c ∈ (DevBuildPy.run_tests_step w q).cmds,
      c ∉ DevBuildPy.nonfatalCmds → w.exec c = ExecResult.found 0 := by
  intro c hc _
  simp only [DevBuildPy.run_tests_step, List.mem_singleton] at h hc
  subst hc
  exact (DevBuildPy.run_command_eq_true w _).mp h

theorem DevBuildPy.run_tests_step_bad (w : DevBuildPy.BWorld) (q : Bool)
    (h : (DevBuildPy.run_tests_step w q).success = false) :
    ∃ c ∈ (DevBuildPy.run_tests_step w q).cmds, w.exec c ≠ ExecResult.found 0 := by
  simp only [DevBuildPy.run_tests_step] at h ⊢
  exact ⟨_, by simp, (DevBuildPy.run_command_eq_false w _).mp h⟩

theorem DevBuildPy.build_package_good (w : DevBuildPy.BWorld)
    (h : (DevBuildPy.build_package w).success = true) :
    ∀ c ∈ (DevBuildPy.build_package w).cmds,
      c ∉ DevBuildPy.nonfatalCmds → w.exec c = ExecResult.found 0 := by
  intro c hc hnf
  unfold DevBuildPy.build_package at h hc
  split_ifs at h hc with h1 h2 <;>
    first
      | (exfalso; simp_all; done)
      | (simp at hc
         first
           | (rcases hc with rfl | rfl <;>
               (simp_all [DevBuildPy.run_command_eq_true,
                 DevBuildPy.build_module_mem_nonfatal]
                done))
           | (rcases hc with rfl
              simp_all [DevBuildPy.run_command_eq_true,
                DevBuildPy.build_module_mem_nonfatal]
              done))

theorem DevBuildPy.build_package_bad (w : DevBuildPy.BWorld)
    (h : (DevBuildPy.build_package w).success = false) :
    ∃ c ∈ (DevBuildPy.build_package w).cmds, w.exec c ≠ ExecResult.found 0 := by
  unfold DevBuildPy.build_package at h ⊢
  split_ifs at h ⊢ with h1 h2 <;>
    first
      | (exfalso; simp_all; done)
      | exact ⟨DevBuildPy.setup_py_cmd, by simp,
          (DevBuildPy.run_command_eq_false w _).mp (by simp_all; done)⟩

theorem DevBuildPy.run_lint_good (w : DevBuildPy.BWorld)
    (h : (DevBuildPy.run_lint w).success = true) :
    ∀ c ∈ (DevBuildPy.run_lint w).cmds,
      c ∉ DevBuildPy.nonfatalCmds → w.exec c = ExecResult.found 0 := by
  intro c hc hnf
  unfold DevBuildPy.run_lint at h hc
  split_ifs at h hc with h1 h2 h3 h4 h5 <;>
    first
      | (exfalso; simp_all; done)
      | (simp at hc
         first
           | (rcases hc with rfl | rfl | rfl | rfl <;>
               (simp_all [DevBuildPy.run_command_eq_true, DevBuildPy.run_command_eq_false,
                 DevBuildPy.flake8_version_mem_nonfatal,
                 DevBuildPy.black_version_mem_nonfatal]
                done))
           | (rcases hc with rfl | rfl | rfl <;>
               (simp_all [DevBuildPy.run_command_eq_true, DevBuildPy.run_command_eq_false,
                 DevBuildPy.flake8_version_mem_nonfatal,
                 DevBuildPy.black_version_mem_nonfatal]
                done))
           | (rcases hc with rfl | rfl <;>
               (simp_all [DevBuildPy.run_command_eq_true, DevBuildPy.run_command_eq_false,
                 DevBuildPy.flake8_version_mem_nonfatal,
                 DevBuildPy.black_version_mem_nonfatal]
                done)))

theorem DevBuildPy.run_lint_bad (w : DevBuildPy.BWorld)
    (h : (DevBuildPy.run_lint w).success = false) :
    ∃ c ∈ (DevBuildPy.run_lint w).cmds, w.exec c ≠ ExecResult.found 0 := by
  unfold DevBuildPy.run_lint at h ⊢
  split_ifs at h ⊢ with h1 h2 h3 h4 h5
  · exact ⟨DevBuildPy.flake8_lint_cmd, by simp,
      (DevBuildPy.run_command_eq_false w _).mp (by simp_all)⟩
  · exact ⟨DevBuildPy.black_check_cmd, by simp,
      (DevBuildPy.run_command_eq_false w _).mp (by simp_all)⟩
  · exact ⟨DevBuildPy.flake8_lint_cmd, by simp,
      (DevBuildPy.run_command_eq_false w _).mp (by simp_all)⟩
  · exfalso; simp_all
  · exact ⟨DevBuildPy.black_check_cmd, by simp,
      (DevBuildPy.run_command_eq_false w _).mp (by simp_all)⟩

theorem DevBuildPy.run_all_good (w : DevBuildPy.BWorld)
    (h : (DevBuildPy.run_all w).success = true) :
    ∀ c ∈ (DevBuildPy.run_all w).cmds,
      c ∉ DevBuildPy.nonfatalCmds → w.exec c = ExecResult.found 0 := by
  intro c hc hnf
  unfold DevBuildPy.run_all DevBuildPy.allSteps at h hc
  simp only [DevBuildPy.runSteps] at h hc
  split_ifs at h hc with hi ht hl hb
  · simp only [List.append_nil, List.mem_append] at hc
    rcases hc with hc | hc | hc | hc
    · exact DevBuildPy.install_good w hi c hc hnf
    · exact DevBuildPy.run_tests_step_good w false ht c hc hnf
    · exact DevBuildPy.run_lint_good w hl c hc hnf
    · exact DevBuildPy.build_package_good w hb c hc hnf
  all_goals simp at h

theorem DevBuildPy.run_all_bad (w : DevBuildPy.BWorld)
    (h : (DevBuildPy.run_all w).success = false) :
    ∃ c ∈ (DevBuildPy.run_all w).cmds, w.exec c ≠ ExecResult.found 0 := by
  unfold DevBuildPy.run_all DevBuildPy.allSteps at h ⊢
  simp only [DevBuildPy.runSteps] at h ⊢
  split_ifs at h ⊢ with hi ht hl hb
  · obtain ⟨c0, hc0, hne⟩ := DevBuildPy.build_package_bad w (by simpa using hb)
    exact ⟨c0, by simp [List.mem_append, hc0], hne⟩
  · obtain ⟨c0, hc0, hne⟩ := DevBuildPy.run_lint_bad w (by simpa using hl)
    exact ⟨c0, by simp [List.mem_append, hc0], hne⟩
  · obtain ⟨c0, hc0, hne⟩ := DevBuildPy.run_tests_step_bad w false (by simpa using ht)
    exact ⟨c0, by simp [List.mem_append, hc0], hne⟩
  · obtain ⟨c0, hc0, hne⟩ := DevBuildPy.install_bad w (by simpa using hi)
    exact ⟨c0, by simp [List.mem_append, hc0], hne⟩

theorem DevBuildPy.dispatch_good (c : DevBuildPy.BCmd) (q : Bool) (w : DevBuildPy.BWorld)
    (h : (DevBuildPy.dispatch c q w).success = true) :
    ∀ cmd ∈ (DevBuildPy.dispatch c q w).cmds,
      cmd ∉ DevBuildPy.nonfatalCmds → w.exec cmd = ExecResult.found 0 := by
  cases c
  case install => exact DevBuildPy.install_good w h
  case test => exact DevBuildPy.run_tests_step_good w q h
  case clean => intro cmd hmem _; simp [DevBuildPy.dispatch] at hmem
  case build => exact DevBuildPy.build_package_good w h
  case lint => exact DevBuildPy.run_lint_good w h
  case all =>
    intro cmd hmem hnf
    exact DevBuildPy.run_all_good w (by simpa [DevBuildPy.dispatch] using h) cmd
      (by simpa [DevBuildPy.dispatch] using hmem) hnf
  case help => intro cmd hmem _; simp [DevBuildPy.dispatch] at hmem

theorem DevBuildPy.dispatch_bad (c : DevBuildPy.BCmd) (q : Bool) (w : DevBuildPy.BWorld)
    (h : (DevBuildPy.dispatch c q w).success = false) :
    ∃ cmd ∈ (DevBuildPy.dispatch c q w).cmds, w.exec cmd ≠ ExecResult.found 0 := by
  cases c
  case install => exact DevBuildPy.install_bad w h
  case test => exact DevBuildPy.run_tests_step_bad w q h
  case clean => simp [DevBuildPy.dispatch] at h
  case build => exact DevBuildPy.build_package_bad w h
  case lint => exact DevBuildPy.run_lint_bad w h
  case all =>
    obtain ⟨c0, hc0, hne⟩ :=
      DevBuildPy.run_all_bad w (by simpa [DevBuildPy.dispatch] using h)
    exact ⟨c0, by simpa [DevBuildPy.dispatch] using hc0, hne⟩
  case help => simp [DevBuildPy.dispatch] at h

theorem DevBuildPy.quick_not_mem_install (w : DevBuildPy.BWorld) :
    DevBuildPy.run_tests_quick_cmd ∉ (DevBuildPy.install_dependencies w).cmds := by
  unfold DevBuildPy.install_dependencies
  split_ifs <;> decide

theorem DevBuildPy.run_tests_step_false_cmds (w : DevBuildPy.BWorld) :
    (DevBuildPy.run_tests_step w false).cmds = [DevBuildPy.run_tests_full_cmd] := rfl

theorem DevBuildPy.quick_not_mem_test_full (w : DevBuildPy.BWorld) :
    DevBuildPy.run_tests_quick_cmd ∉ (DevBuildPy.run_tests_step w false).cmds := by
  show DevBuildPy.run_tests_quick_cmd ∉ [DevBuildPy.run_tests_full_cmd]
  decide

theorem DevBuildPy.quick_not_mem_lint (w : DevBuildPy.BWorld) :
    DevBuildPy.run_tests_quick_cmd ∉ (DevBuildPy.run_lint w).cmds := by
  unfold DevBuildPy.run_lint
  split_ifs <;>
    simp [DevBuildPy.run_tests_quick_cmd, DevBuildPy.flake8_version_cmd,
      DevBuildPy.flake8_lint_cmd, DevBuildPy.black_version_cmd, DevBuildPy.black_check_cmd]

theorem DevBuildPy.quick_not_mem_build (w : DevBuildPy.BWorld) :
    DevBuildPy.run_tests_quick_cmd ∉ (DevBuildPy.build_package w).cmds := by
  unfold DevBuildPy.build_package
  split_ifs <;> decide

theorem DevBuildPy.quick_not_mem_run_all (w : DevBuildPy.BWorld) :
    DevBuildPy.run_tests_quick_cmd ∉ (DevBuildPy.run_all w).cmds := by
  intro hmem
  unfold DevBuildPy.run_all DevBuildPy.allSteps at hmem
  simp only [DevBuildPy.runSteps] at hmem
  split_ifs at hmem <;>
    simp [DevBuildPy.quick_not_mem_install, DevBuildPy.quick_not_mem_test_full,
      DevBuildPy.quick_not_mem_lint, DevBuildPy.quick_not_mem_build] at hmem

theorem Conftest.foldl_pop_eq (l : List String) (e : Conftest.Env) (v : String) :
    (l.foldl Conftest.pop e) v = if v ∈ l then none else e v := by
  induction l generalizing e with
  | nil => simp
  | cons h t ih =>
      simp only [List.foldl_cons, ih, Conftest.pop, List.mem_cons]
      by_cases hv : v ∈ t
      · simp [hv]
      · by_cases hveq : v = h <;> simp [hv, hveq]

/-! ## Claims -/

/-- C1 (code divergence evidence): invoked with `--coverage
--coverage-fail 90` in a world where the requirements manifest exists,
pytest imports and every command exits 0, `main` constructs exactly the
`run_coverage_report` invocation, whose argument list contains the
hard-coded `--cov-fail-under=85`, does not contain `--cov-fail-under=90`,
and does not contain the quick-mode marker-filter expression.  The
`--coverage-fail` value is silently ignored, contradicting the flag's own
help text. -/
theorem c1_coverage_fail_ignored :
    (RunTestsPy.rtMain
        { RunTestsPy.defaultArgs with coverage := true, coverage_fail := 90 }
        RunTestsPy.okWorld).2 = [RunTestsPy.coverage_cmd]
    ∧ "--cov-fail-under=85" ∈ RunTestsPy.coverage_cmd
    ∧ "--cov-fail-under=90" ∉ RunTestsPy.coverage_cmd
    ∧ "unit or (not integration and not slow)" ∉ RunTestsPy.coverage_cmd := by
  decide

/-- C3: exactly one high-level mode of the Test Runner Wrapper executes,
selected by priority quick, then integration, then coverage, else default;
when `--quick` and `--coverage` are both given, the quick-unit-tests
invocation is constructed and no coverage flag (no `--cov…` fragment)
appears in it; and on the test-running path `main` launches exactly the
one selected pytest invocation. -/
theorem c3_mode_priority (a : RunTestsPy.RArgs) (w : RunTestsPy.RWorld) :
    (a.quick = true → RunTestsPy.selectRunCmd a = RunTestsPy.quick_cmd)
    ∧ (a.quick = false → a.integration = true →
        RunTestsPy.selectRunCmd a = RunTestsPy.integration_cmd)
    ∧ (a.quick = false → a.integration = false → a.coverage = true →
        RunTestsPy.selectRunCmd a = RunTestsPy.coverage_cmd)
    ∧ (a.quick = false → a.integration = false → a.coverage = false →
        RunTestsPy.selectRunCmd a = RunTestsPy.run_tests_cmd a)
    ∧ (a.quick = true → a.coverage = true →
        RunTestsPy.selectRunCmd a = RunTestsPy.quick_cmd
        ∧ ∀ s ∈ RunTestsPy.selectRunCmd a, "--cov".data.isPrefixOf s.data = false)
    ∧ (a.setup = false → a.check = false → a.lint = false →
        w.reqExists = true → w.pytestImportable = true →
        (RunTestsPy.rtMain a w).2 = [RunTestsPy.selectRunCmd a]) := by
  refine ⟨?_, ?_, ?_, ?_, ?_, ?_⟩
  · intro hq; simp [RunTestsPy.selectRunCmd, hq]
  · intro hq hi; simp [RunTestsPy.selectRunCmd, hq, hi]
  · intro hq hi hc; simp [RunTestsPy.selectRunCmd, hq, hi, hc]
  · intro hq hi hc; simp [RunTestsPy.selectRunCmd, hq, hi, hc]
  · intro hq hc
    constructor
    · simp [RunTestsPy.selectRunCmd, hq]
    · simp only [RunTestsPy.selectRunCmd, hq, if_true]
      decide
  · intro hs hck hl hr hp
    simp [RunTestsPy.rtMain, hs, hck, hl, hr, hp]

/-- C3 witness: with `--quick --coverage` the constructed invocation is
the quick one, and on the test-running path it is the only command
launched. -/
theorem c3_mode_priority_witness :
    RunTestsPy.selectRunCmd
        { RunTestsPy.defaultArgs with quick := true, coverage := true }
      = RunTestsPy.quick_cmd
    ∧ (RunTestsPy.rtMain
          { RunTestsPy.defaultArgs with quick := true, coverage := true }
          RunTestsPy.okWorld).2
      = [RunTestsPy.selectRunCmd
          { RunTestsPy.defaultArgs with quick := true, coverage := true }] :=
  ⟨(c3_mode_priority _ RunTestsPy.okWorld).1 rfl,
   (c3_mode_priority _ RunTestsPy.okWorld).2.2.2.2.2 rfl rfl rfl rfl rfl⟩

/-- C7: the Build Orchestrator exits 1 whenever the selected subcommand's
result is failure, and the `help` subcommand always exits 0. -/
theorem c7_exit_codes (c : DevBuildPy.BCmd) (q : Bool) (w : DevBuildPy.BWorld) :
    ((DevBuildPy.dispatch c q w).success = false → DevBuildPy.exitCode c q w = 1)
    ∧ DevBuildPy.exitCode DevBuildPy.BCmd.help q w = 0 := by
  constructor
  · intro h
    by_cases hc : c = DevBuildPy.BCmd.help
    · subst hc; simp [DevBuildPy.dispatch] at h
    · simp [DevBuildPy.exitCode, h, hc]
  · simp [DevBuildPy.exitCode, DevBuildPy.dispatch]

/-- C7 witness: in a world where every command exits 1, `install` fails
and the process exits 1, while `help` exits 0. -/
theorem c7_exit_codes_witness :
    DevBuildPy.exitCode DevBuildPy.BCmd.install false DevBuildPy.allFailWorld = 1
    ∧ DevBuildPy.exitCode DevBuildPy.BCmd.help false DevBuildPy.allFailWorld = 0 :=
  ⟨(c7_exit_codes DevBuildPy.BCmd.install false DevBuildPy.allFailWorld).1 (by decide),
   (c7_exit_codes DevBuildPy.BCmd.install false DevBuildPy.allFailWorld).2⟩

/-- C9: around every test, each variable of the fixture's cleanup list is
absent from the environment when the test body starts — whatever the
enclosing shell's environment was — and after the fixture finishes the
environment equals exactly the one captured before it ran, whatever the
test body did to it. -/
theorem c9_clean_environment (env0 : Conftest.Env) (body : Conftest.Env → Conftest.Env) :
    (∀ v, v ∈ Conftest.env_vars_to_clean →
      (Conftest.clean_environment env0 body).1 v = none)
    ∧ (Conftest.clean_environment env0 body).2 = env0 := by
  constructor
  · intro v hv
    simp only [Conftest.clean_environment, Conftest.foldl_pop_eq, hv, if_pos]
  · funext k
    simp only [Conftest.clean_environment, Conftest.updateAll, Conftest.clear]
    cases env0 k <;> rfl

/-- C9 witness: a shell environment carrying `PASSWORD` loses it before
the test body starts and is restored exactly afterwards, even for a test
body that erases the whole environment. -/
theorem c9_clean_environment_witness :
    (Conftest.clean_environment
        (fun k => if k = "PASSWORD" then some "secret" else none)
        (fun _ => fun _ => none)).1 "PASSWORD" = none
    ∧ (Conftest.clean_environment
        (fun k => if k = "PASSWORD" then some "secret" else none)
        (fun _ => fun _ => none)).2
      = (fun k => if k = "PASSWORD" then some "secret" else none) :=
  ⟨(c9_clean_environment _ _).1 "PASSWORD" (by simp [Conftest.env_vars_to_clean]),
   (c9_clean_environment _ _).2⟩

/-- C10: in every test-running mode (quick, integration, coverage and
default — i.e. whenever none of `--setup`, `--check`, `--lint` is given),
a missing `tests/test_requirements.txt` makes `main` exit with code 1
having launched no external process at all; and the `--setup`, `--check`
and `--lint` modes behave identically whether or not that file exists. -/
theorem c10_requirements_gate (a : RunTestsPy.RArgs) (w : RunTestsPy.RWorld) (b : Bool) :
    (a.setup = false → a.check = false → a.lint = false → w.reqExists = false →
      RunTestsPy.rtMain a w = (1, []))
    ∧ ((a.setup = true ∨ a.check = true ∨ a.lint = true) →
      RunTestsPy.rtMain a { w with reqExists := b } = RunTestsPy.rtMain a w) := by
  constructor
  · intro hs hc hl hr
    simp [RunTestsPy.rtMain, hs, hc, hl, hr]
  · intro h
    rcases h with h | h | h
    · simp [RunTestsPy.rtMain, h]
    · simp [RunTestsPy.rtMain, h]
    · by_cases hs : a.setup = true
      · simp [RunTestsPy.rtMain, hs]
      · simp only [Bool.not_eq_true] at hs
        simp [RunTestsPy.rtMain, hs, h]

/-- C10 witness: the default (full-run) mode exits 1 with no process
launched when the manifest is missing, and `--setup` is unaffected by the
manifest's existence. -/
theorem c10_requirements_gate_witness :
    RunTestsPy.rtMain RunTestsPy.defaultArgs
        { RunTestsPy.okWorld with reqExists := false } = (1, [])
    ∧ RunTestsPy.rtMain { RunTestsPy.defaultArgs with setup := true }
          { RunTestsPy.okWorld with reqExists := true }
      = RunTestsPy.rtMain { RunTestsPy.defaultArgs with setup := true }
          RunTestsPy.okWorld :=
  ⟨(c10_requirements_gate RunTestsPy.defaultArgs
      { RunTestsPy.okWorld with reqExists := false } true).1 rfl rfl rfl rfl,
   (c10_requirements_gate { RunTestsPy.defaultArgs with setup := true }
      RunTestsPy.okWorld true).2 (Or.inl rfl)⟩

/-- C2 counterexample: in a world where `python -m build` exits 1 and every
other command exits 0, the `build` subcommand launches `python -m build`
(which exits non-zero) yet its overall result is success=True, because the
`setup.py` fallback recovers — refuting "any single non-zero exit implies
success=False" as stated. -/
theorem c2_counterexample :
    DevBuildPy.buildFallbackWorld.exec DevBuildPy.build_module_cmd = ExecResult.found 1
    ∧ DevBuildPy.build_module_cmd
        ∈ (DevBuildPy.dispatch DevBuildPy.BCmd.build false DevBuildPy.buildFallbackWorld).cmds
    ∧ (DevBuildPy.dispatch DevBuildPy.BCmd.build false DevBuildPy.buildFallbackWorld).success
        = true := by
  decide

/-- C2 (amended): for every subcommand other than `help`, a zero exit from
every constituent external invocation implies success=True, and a non-zero
exit of any constituent invocation implies success=False — except for the
invocations the orchestrator explicitly tolerates: the primary build
command (recovered by the `setup.py` fallback) and the two lint
availability probes (whose failure merely skips that tool). -/
theorem c2_exit_propagation (c : DevBuildPy.BCmd) (q : Bool) (w : DevBuildPy.BWorld)
    (_hc : c ≠ DevBuildPy.BCmd.help) :
    ((∀ cmd ∈ (DevBuildPy.dispatch c q w).cmds, w.exec cmd = ExecResult.found 0) →
      (DevBuildPy.dispatch c q w).success = true)
    ∧ (∀ cmd k, cmd ∈ (DevBuildPy.dispatch c q w).cmds → w.exec cmd = ExecResult.found k →
        k ≠ 0 → cmd ∉ DevBuildPy.nonfatalCmds →
        (DevBuildPy.dispatch c q w).success = false) := by
  constructor
  · intro hall
    cases hs : (DevBuildPy.dispatch c q w).success
    · obtain ⟨c0, hc0, hne⟩ := DevBuildPy.dispatch_bad c q w hs
      exact absurd (hall c0 hc0) hne
    · rfl
  · intro cmd k hmem hk hkne hnf
    cases hs : (DevBuildPy.dispatch c q w).success
    · rfl
    · have h0 := DevBuildPy.dispatch_good c q w hs cmd hmem hnf
      rw [hk] at h0
      injection h0 with h0
      exact absurd h0 hkne

/-- C2 witness: `install` succeeds when every command exits 0, and fails
when its first probe (`uv --version`, not a tolerated invocation) exits 1. -/
theorem c2_exit_propagation_witness :
    (DevBuildPy.dispatch DevBuildPy.BCmd.install false DevBuildPy.allOkWorld).success = true
    ∧ (DevBuildPy.dispatch DevBuildPy.BCmd.install false DevBuildPy.allFailWorld).success
        = false :=
  ⟨(c2_exit_propagation DevBuildPy.BCmd.install false DevBuildPy.allOkWorld
      (by decide)).1 (fun _ _ => rfl),
   (c2_exit_propagation DevBuildPy.BCmd.install false DevBuildPy.allFailWorld
      (by decide)).2 DevBuildPy.uv_version_cmd 1 (by decide) rfl (by decide) (by decide)⟩

/-- C4: the `all` pipeline invokes its steps in exactly the order install,
test, lint, build; it stops immediately after the first failing step (the
step-name trace is the corresponding prefix and the overall result is
failure), succeeds only when all four steps succeed, always invokes the
full (non-quick) test-runner command when the install step passes, and
never invokes the quick test-runner command. -/
theorem c4_pipeline_order (w : DevBuildPy.BWorld) :
    ((DevBuildPy.install_dependencies w).success = false →
      (DevBuildPy.run_all w).steps = ["Installing dependencies"]
      ∧ (DevBuildPy.run_all w).success = false)
    ∧ ((DevBuildPy.install_dependencies w).success = true →
       (DevBuildPy.run_tests_step w false).success = false →
      (DevBuildPy.run_all w).steps = ["Installing dependencies", "Running tests"]
      ∧ (DevBuildPy.run_all w).success = false)
    ∧ ((DevBuildPy.install_dependencies w).success = true →
       (DevBuildPy.run_tests_step w false).success = true →
       (DevBuildPy.run_lint w).success = false →
      (DevBuildPy.run_all w).steps
        = ["Installing dependencies", "Running tests", "Running lint checks"]
      ∧ (DevBuildPy.run_all w).success = false)
    ∧ ((DevBuildPy.install_dependencies w).success = true →
       (DevBuildPy.run_tests_step w false).success = true →
       (DevBuildPy.run_lint w).success = true →
       (DevBuildPy.build_package w).success = false →
      (DevBuildPy.run_all w).steps
        = ["Installing dependencies", "Running tests", "Running lint checks",
           "Building package"]
      ∧ (DevBuildPy.run_all w).success = false)
    ∧ ((DevBuildPy.install_dependencies w).success = true →
       (DevBuildPy.run_tests_step w false).success = true →
       (DevBuildPy.run_lint w).success = true →
       (DevBuildPy.build_package w).success = true →
      (DevBuildPy.run_all w).steps
        = ["Installing dependencies", "Running tests", "Running lint checks",
           "Building package"]
      ∧ (DevBuildPy.run_all w).success = true)
    ∧ ((DevBuildPy.install_dependencies w).success = true →
      DevBuildPy.run_tests_full_cmd ∈ (DevBuildPy.run_all w).cmds)
    ∧ DevBuildPy.run_tests_quick_cmd ∉ (DevBuildPy.run_all w).cmds := by
  refine ⟨?_, ?_, ?_, ?_, ?_, ?_, DevBuildPy.quick_not_mem_run_all w⟩
  · intro hi
    simp [DevBuildPy.run_all, DevBuildPy.allSteps, DevBuildPy.runSteps, hi]
  · intro hi ht
    simp [DevBuildPy.run_all, DevBuildPy.allSteps, DevBuildPy.runSteps, hi, ht]
  · intro hi ht hl
    simp [DevBuildPy.run_all, DevBuildPy.allSteps, DevBuildPy.runSteps, hi, ht, hl]
  · intro hi ht hl hb
    simp [DevBuildPy.run_all, DevBuildPy.allSteps, DevBuildPy.runSteps, hi, ht, hl, hb]
  · intro hi ht hl hb
    simp [DevBuildPy.run_all, DevBuildPy.allSteps, DevBuildPy.runSteps, hi, ht, hl, hb]
  · intro hi
    cases ht : (DevBuildPy.run_tests_step w false).success <;>
      simp [DevBuildPy.run_all, DevBuildPy.allSteps, DevBuildPy.runSteps, hi, ht,
        DevBuildPy.run_tests_step_false_cmds]

/-- C4 witness: with every command succeeding, the pipeline runs all four
steps in order, succeeds, and never launches the quick test command. -/
theorem c4_pipeline_order_witness :
    (DevBuildPy.run_all DevBuildPy.allOkWorld).steps
      = ["Installing dependencies", "Running tests", "Running lint checks",
         "Building package"]
    ∧ (DevBuildPy.run_all DevBuildPy.allOkWorld).success = true
    ∧ DevBuildPy.run_tests_quick_cmd ∉ (DevBuildPy.run_all DevBuildPy.allOkWorld).cmds :=
  ⟨((c4_pipeline_order DevBuildPy.allOkWorld).2.2.2.2.1 (by decide) (by decide)
      (by decide) (by decide)).1,
   ((c4_pipeline_order DevBuildPy.allOkWorld).2.2.2.2.1 (by decide) (by decide)
      (by decide) (by decide)).2,
   (c4_pipeline_order DevBuildPy.allOkWorld).2.2.2.2.2.2⟩

/-- C5 counterexample: with flake8 absent from the search path (and black
absent too), the `lint` step attempts the flake8 probe, the tool is not
found, yet the step's result is success=True — refuting "the step's result
is failure" as stated. -/
theorem c5_counterexample :
    DevBuildPy.noLintersWorld.exec DevBuildPy.flake8_version_cmd = ExecResult.notFound
    ∧ (DevBuildPy.run_lint DevBuildPy.noLintersWorld).success = true := by
  decide

/-- C5 (amended): an external tool not found on the search path is caught
and reported, never raising out of the step: an invocation made through
`run_command` yields False; the lint step's availability probes instead
treat not-found as "skip that tool with a warning", so the lint check is
not run and the step may still succeed. -/
theorem c5_not_found_handling (w : DevBuildPy.BWorld) (cmd : List String) :
    (w.exec cmd = ExecResult.notFound → DevBuildPy.run_command w cmd = false)
    ∧ (w.exec DevBuildPy.flake8_version_cmd = ExecResult.notFound →
       w.exec DevBuildPy.black_version_cmd = ExecResult.notFound →
        (DevBuildPy.run_lint w).success = true
        ∧ DevBuildPy.flake8_lint_cmd ∉ (DevBuildPy.run_lint w).cmds
        ∧ "flake8 not found, skipping linting" ∈ (DevBuildPy.run_lint w).warns
        ∧ "black not found, skipping format checking" ∈ (DevBuildPy.run_lint w).warns) := by
  constructor
  · intro h
    simp [DevBuildPy.run_command, h]
  · intro h1 h2
    have hf : DevBuildPy.run_command w DevBuildPy.flake8_version_cmd = false := by
      simp [DevBuildPy.run_command, h1]
    have hb : DevBuildPy.run_command w DevBuildPy.black_version_cmd = false := by
      simp [DevBuildPy.run_command, h2]
    refine ⟨?_, ?_, ?_, ?_⟩ <;> simp [DevBuildPy.run_lint, hf, hb] <;> decide

/-- C5 witness: in the world without linters, `run_command` on the flake8
probe returns False and the lint step still succeeds. -/
theorem c5_not_found_handling_witness :
    DevBuildPy.run_command DevBuildPy.noLintersWorld DevBuildPy.flake8_version_cmd = false
    ∧ (DevBuildPy.run_lint DevBuildPy.noLintersWorld).success = true :=
  ⟨(c5_not_found_handling DevBuildPy.noLintersWorld DevBuildPy.flake8_version_cmd).1
      (by decide),
   ((c5_not_found_handling DevBuildPy.noLintersWorld DevBuildPy.flake8_version_cmd).2
      (by decide) (by decide)).1⟩

/-- C6 counterexample: with `tests/test_requirements.txt` missing and every
command exiting 0, the orchestrator's install step skips the
test-requirements installation and succeeds, but emits no warning at all —
refuting "skipped with a warning" as stated. -/
theorem c6_counterexample :
    (DevBuildPy.install_dependencies DevBuildPy.noTestReqWorld).success = true
    ∧ DevBuildPy.uv_test_req_cmd
        ∉ (DevBuildPy.install_dependencies DevBuildPy.noTestReqWorld).cmds
    ∧ (DevBuildPy.install_dependencies DevBuildPy.noTestReqWorld).warns = [] := by
  decide

/-- C6 (amended): when the optional `tests/test_requirements.txt` manifest
is missing, the orchestrator's install step silently skips the consuming
invocation (no warning is printed) rather than failing — the step still
succeeds when the remaining invocations exit 0; where the file is
explicitly required, namely the test wrapper's run modes, the process
instead exits with code 1. -/
theorem c6_missing_manifest :
    (∀ w : DevBuildPy.BWorld, w.testReqExists = false →
      DevBuildPy.uv_test_req_cmd ∉ (DevBuildPy.install_dependencies w).cmds
      ∧ (DevBuildPy.install_dependencies w).warns = []
      ∧ ((∀ c ∈ (DevBuildPy.install_dependencies w).cmds, w.exec c = ExecResult.found 0) →
          (DevBuildPy.install_dependencies w).success = true))
    ∧ (∀ (a : RunTestsPy.RArgs) (rw : RunTestsPy.RWorld),
        a.setup = false → a.check = false → a.lint = false → rw.reqExists = false →
        RunTestsPy.rtMain a rw = (1, [])) := by
  constructor
  · intro w hreq
    refine ⟨?_, ?_, ?_⟩
    · intro hmem
      unfold DevBuildPy.install_dependencies at hmem
      split_ifs at hmem <;>
        first
          | (revert hmem; decide)
          | simp_all
    · unfold DevBuildPy.install_dependencies
      split_ifs <;> rfl
    · intro hall
      cases hs : (DevBuildPy.install_dependencies w).success
      · obtain ⟨c0, hc0, hne⟩ := DevBuildPy.install_bad w hs
        exact absurd (hall c0 hc0) hne
      · rfl
  · intro a rw h1 h2 h3 h4
    simp [RunTestsPy.rtMain, h1, h2, h3, h4]

/-- C6 witness: the concrete skip (install succeeds without the
test-requirements invocation) and the concrete required case (default run
mode exits 1 with nothing launched). -/
theorem c6_missing_manifest_witness :
    DevBuildPy.uv_test_req_cmd
      ∉ (DevBuildPy.install_dependencies DevBuildPy.noTestReqWorld).cmds
    ∧ RunTestsPy.rtMain RunTestsPy.defaultArgs
        { RunTestsPy.okWorld with reqExists := false } = (1, []) :=
  ⟨(c6_missing_manifest.1 DevBuildPy.noTestReqWorld rfl).1,
   c6_missing_manifest.2 RunTestsPy.defaultArgs
     { RunTestsPy.okWorld with reqExists := false } rfl rfl rfl rfl⟩

theorem CleanFS.isPrefixOf_self (l : List String) : l.isPrefixOf l = true := by
  induction l with
  | nil => rfl
  | cons a t ih => simp [List.isPrefixOf, ih]

theorem CleanFS.removeEntry_subset (fs : List CleanFS.Entry) (e : CleanFS.Entry) :
    ∀ q ∈ CleanFS.removeEntry fs e, q ∈ fs := by
  intro q hq
  unfold CleanFS.removeEntry at hq
  split_ifs at hq <;> exact (List.mem_filter.mp hq).1

theorem CleanFS.not_mem_removeEntry_self (fs : List CleanFS.Entry) (e : CleanFS.Entry) :
    e ∉ CleanFS.removeEntry fs e := by
  intro hmem
  unfold CleanFS.removeEntry at hmem
  split_ifs at hmem with h
  · have h2 := (List.mem_filter.mp hmem).2
    simp [CleanFS.isPrefixOf_self] at h2
  · have h2 := (List.mem_filter.mp hmem).2
    simp at h2

theorem CleanFS.removeMatches_subset (l : List CleanFS.Entry) :
    ∀ (fs : List CleanFS.Entry) (c : Nat),
      ∀ q ∈ (CleanFS.removeMatches fs c l).1, q ∈ fs := by
  induction l with
  | nil => intro fs c q hq; simpa [CleanFS.removeMatches] using hq
  | cons a t ih =>
      intro fs c q hq
      unfold CleanFS.removeMatches at hq
      split_ifs at hq with ha
      · exact CleanFS.removeEntry_subset fs a q (ih _ _ q hq)
      · exact ih _ _ q hq

theorem CleanFS.not_mem_removeMatches (l : List CleanFS.Entry) :
    ∀ (fs : List CleanFS.Entry) (c : Nat) (e : CleanFS.Entry), e ∈ l →
      e ∉ (CleanFS.removeMatches fs c l).1 := by
  induction l with
  | nil => intro fs c e he; simp at he
  | cons a t ih =>
      intro fs c e he hmem
      unfold CleanFS.removeMatches at hmem
      split_ifs at hmem with ha
      · rcases List.mem_cons.mp he with rfl | het
        · exact CleanFS.not_mem_removeEntry_self fs e
            (CleanFS.removeMatches_subset t _ _ e hmem)
        · exact ih _ _ e het hmem
      · rcases List.mem_cons.mp he with rfl | het
        · exact ha (CleanFS.removeMatches_subset t _ _ e hmem)
        · exact ih _ _ e het hmem

theorem CleanFS.cleanPattern_subset (fs : List CleanFS.Entry) (c : Nat) (p : CleanFS.Pat) :
    ∀ q ∈ (CleanFS.cleanPattern fs c p).1, q ∈ fs :=
  fun q hq => CleanFS.removeMatches_subset _ fs c q hq

theorem CleanFS.cleanPattern_no_match (fs : List CleanFS.Entry) (c : Nat) (p : CleanFS.Pat) :
    ∀ q ∈ (CleanFS.cleanPattern fs c p).1, CleanFS.entryMatches p q = false := by
  intro q hq
  cases hm : CleanFS.entryMatches p q
  · rfl
  · exfalso
    have hqfs : q ∈ fs := CleanFS.cleanPattern_subset fs c p q hq
    have hql : q ∈ fs.filter (CleanFS.entryMatches p) := List.mem_filter.mpr ⟨hqfs, hm⟩
    exact CleanFS.not_mem_removeMatches _ fs c q hql hq

theorem CleanFS.foldl_clean_subset (ps : List CleanFS.Pat) :
    ∀ (s : List CleanFS.Entry × Nat),
      ∀ q ∈ (ps.foldl (fun s p => CleanFS.cleanPattern s.1 s.2 p) s).1, q ∈ s.1 := by
  induction ps with
  | nil => intro s q hq; simpa using hq
  | cons a t ih =>
      intro s q hq
      simp only [List.foldl_cons] at hq
      exact CleanFS.cleanPattern_subset s.1 s.2 a q (ih _ q hq)

theorem CleanFS.foldl_clean_no_match (ps : List CleanFS.Pat) :
    ∀ (s : List CleanFS.Entry × Nat) (p : CleanFS.Pat), p ∈ ps →
      ∀ q ∈ (ps.foldl (fun s p => CleanFS.cleanPattern s.1 s.2 p) s).1,
        CleanFS.entryMatches p q = false := by
  induction ps with
  | nil => intro s p hp; simp at hp
  | cons a t ih =>
      intro s p hp q hq
      simp only [List.foldl_cons] at hq
      rcases List.mem_cons.mp hp with rfl | hpt
      · exact CleanFS.cleanPattern_no_match s.1 s.2 p q
          (CleanFS.foldl_clean_subset t _ q hq)
      · exact ih _ p hpt q hq

theorem CleanFS.clean_build_eq (fs : List CleanFS.Entry) :
    CleanFS.clean_build fs
      = CleanFS.patterns_to_remove.foldl
          (fun s p => CleanFS.cleanPattern s.1 s.2 p) (fs, 0) := rfl

theorem CleanFS.clean_build_no_match (fs : List CleanFS.Entry) :
    ∀ p ∈ CleanFS.patterns_to_remove, ∀ q ∈ (CleanFS.clean_build fs).1,
      CleanFS.entryMatches p q = false :=
  fun p hp q hq =>
    CleanFS.foldl_clean_no_match CleanFS.patterns_to_remove (fs, 0) p hp q hq

theorem CleanFS.cleanPattern_of_no_match (fs : List CleanFS.Entry) (c : Nat) (p : CleanFS.Pat)
    (h : ∀ q ∈ fs, CleanFS.entryMatches p q = false) :
    CleanFS.cleanPattern fs c p = (fs, c) := by
  unfold CleanFS.cleanPattern
  have hfil : fs.filter (CleanFS.entryMatches p) = [] := by
    rw [List.filter_eq_nil_iff]
    intro a ha
    simp [h a ha]
  rw [hfil]
  rfl

theorem CleanFS.foldl_clean_of_no_match (ps : List CleanFS.Pat) :
    ∀ (fs : List CleanFS.Entry) (c : Nat),
      (∀ p ∈ ps, ∀ q ∈ fs, CleanFS.entryMatches p q = false) →
      ps.foldl (fun s p => CleanFS.cleanPattern s.1 s.2 p) (fs, c) = (fs, c) := by
  induction ps with
  | nil => intro fs c _; rfl
  | cons a t ih =>
      intro fs c h
      simp only [List.foldl_cons]
      rw [CleanFS.cleanPattern_of_no_match fs c a (h a (by simp))]
      exact ih fs c (fun p hp q hq => h p (by simp [hp]) q hq)

/-- C8: `clean` run twice in succession is idempotent — on any filesystem
state, applying `clean_build` to the state left by a first `clean_build`
changes nothing and its `removed_count` is 0. -/
theorem c8_clean_idempotent (fs : List CleanFS.Entry) :
    CleanFS.clean_build (CleanFS.clean_build fs).1 = ((CleanFS.clean_build fs).1, 0) := by
  have h := CleanFS.foldl_clean_of_no_match CleanFS.patterns_to_remove
    (CleanFS.clean_build fs).1 0 (CleanFS.clean_build_no_match fs)
  rw [CleanFS.clean_build_eq ((CleanFS.clean_build fs).1)]
  exact h
